import Mathlib

/-!
Shallow embedding of the Harusali app core: the Gemini response gateway
(`src/api/gemini.ts`) and the conversation state manager
(`AppStateContext`, stored in `src/constants/emotions.ts`).

JavaScript-specific behaviours are modelled explicitly:
* JS numbers that can become `NaN` (via `parseInt` on garbage) are `JsNum = Option Int`,
  with `none` playing the role of `NaN`.
* String truthiness (`if (s)`) is the test `s ≠ ""` (with `null` mapped to `Option.none`).
* `AsyncStorage` is a string-keyed association list `Storage`.
* `fetch` and `JSON.parse` of the remote payload are external effects; their outcome
  for one call is an explicit environment value (`FetchOutcome`, `ParseOutcome`).
-/

namespace Harusali

/-- JS number that may be `NaN` (`none`). -/
abbrev JsNum := Option Int

/-- Addition on a JS number: `NaN + k = NaN`. -/
def jsAdd (n : JsNum) (k : Int) : JsNum := n.map (· + k)

/-- `Number.prototype.toString` for integers, with `NaN` printing as `"NaN"`. -/
def jsNumToString : JsNum → String
  | none => "NaN"
  | some n => toString n

/-- Model of JS `parseInt(s, 10)`: skip leading whitespace, optional sign, then the
longest digit run; `NaN` (`none`) when no digit is found; trailing junk ignored. -/
def jsParseInt (s : String) : Option Int :=
  let cs := s.data.dropWhile Char.isWhitespace
  let signAndRest : Int × List Char :=
    match cs with
    | '-' :: rest => (-1, rest)
    | '+' :: rest => (1, rest)
    | _ => (1, cs)
  let ds := signAndRest.2.takeWhile Char.isDigit
  if ds.isEmpty then none
  else some (signAndRest.1 * (Int.ofNat (ds.foldl (fun acc c => acc * 10 + (c.toNat - 48)) 0)))

/-- Whether `needle` is a leading segment of `hay`. -/
def startsWithList : List Char → List Char → Bool
  | _, [] => true
  | [], _ :: _ => false
  | a :: as, b :: bs => a == b && startsWithList as bs

/-- Whether `needle` occurs contiguously inside `hay`. -/
def containsList (hay needle : List Char) : Bool :=
  match hay with
  | [] => needle.isEmpty
  | _ :: rest => startsWithList hay needle || containsList rest needle

/-- Model of JS `String.prototype.includes`: substring containment. -/
def jsIncludes (s sub : String) : Bool :=
  containsList s.data sub.data

/-- Model of JS `String.prototype.trim`. -/
def jsTrim (s : String) : String :=
  ⟨((s.data.dropWhile Char.isWhitespace).reverse.dropWhile Char.isWhitespace).reverse⟩

/-- Model of JS `Date.toISOString().split('T')[0]`: the part before the first `T`. -/
def isoDatePart (s : String) : String := ⟨s.data.takeWhile (fun c => c != 'T')⟩

/-- AsyncStorage model: an association list from keys to string values, newest first. -/
abbrev Storage := List (String × String)

/-- `AsyncStorage.getItem`: `none` models JS `null` for a missing key. -/
def getItem (store : Storage) (k : String) : Option String :=
  (List.find? (fun kv => kv.1 == k) store).map (fun kv => kv.2)

/-- `AsyncStorage.setItem`: replaces any existing binding of the key. -/
def setItem (store : Storage) (k v : String) : Storage :=
  (k, v) :: List.filter (fun kv => kv.1 != k) store

/-- `AsyncStorage.removeItem`. -/
def removeItem (store : Storage) (k : String) : Storage :=
  List.filter (fun kv => kv.1 != k) store

/-! ## Gateway model (`src/api/gemini.ts`) -/

/-- The 5-value emotion union type `HaruEmotion`. -/
inductive HaruEmotion
  | neutral
  | very_shy
  | turned_away
  | relaxed_smile
  | half_turned
  deriving DecidableEq, Repr

/-- The list used in the source both for response validation (`validEmotions`) and for
the storage type guard (`HARU_EMOTIONS`). -/
def HARU_EMOTIONS : List HaruEmotion :=
  [HaruEmotion.neutral, HaruEmotion.very_shy, HaruEmotion.turned_away,
   HaruEmotion.relaxed_smile, HaruEmotion.half_turned]

/-- The TS string literal naming an emotion. -/
def emotionToString : HaruEmotion → String
  | HaruEmotion.neutral => "neutral"
  | HaruEmotion.very_shy => "very_shy"
  | HaruEmotion.turned_away => "turned_away"
  | HaruEmotion.relaxed_smile => "relaxed_smile"
  | HaruEmotion.half_turned => "half_turned"

/-- Inverse of `emotionToString`: models `validEmotions.includes(x) ? x : ...` checks on
raw strings coming from JSON or storage. -/
def emotionOfString (s : String) : Option HaruEmotion :=
  if s = "neutral" then some HaruEmotion.neutral
  else if s = "very_shy" then some HaruEmotion.very_shy
  else if s = "turned_away" then some HaruEmotion.turned_away
  else if s = "relaxed_smile" then some HaruEmotion.relaxed_smile
  else if s = "half_turned" then some HaruEmotion.half_turned
  else none

/-- `GeminiStatus` union type. -/
inductive GeminiStatus
  | idle
  | ok
  | error
  | overloaded
  deriving DecidableEq, Repr

/-- `HaruResponse` record. -/
structure HaruResponse where
  text : String
  state : HaruEmotion
  deriving DecidableEq, Repr

/-- The storage key `API_KEY_STORAGE_KEY = 'harusali_apiKey'`. -/
def API_KEY_STORAGE_KEY : String := "harusali_apiKey"

/-- `FALLBACK_MESSAGES`: the fixed pool used when the AI is unavailable. -/
def FALLBACK_MESSAGES : List HaruResponse :=
  [⟨"...지금은 내가 잠시 다른 생각을 하고 있었나 봐. 그래도 네 얘기는 잘 들었어.", HaruEmotion.half_turned⟩,
   ⟨"윽... 잠깐 숨이 막혔어. 혹시 조금만 이따가 다시 말해줄 수 있을까?", HaruEmotion.very_shy⟩]

/-- `getRandomFallback`: `Math.floor(Math.random() * length)` is modelled by an explicit
random source `r` reduced mod the pool length. -/
def getRandomFallback (r : Nat) : HaruResponse :=
  FALLBACK_MESSAGES.getD (r % FALLBACK_MESSAGES.length) ⟨"", HaruEmotion.neutral⟩

/-- Outcome of `JSON.parse(botResponseText)` plus the two property reads on its result.
`parseError` covers a parse exception (and a property access throwing on `null`);
`parsed emotion response` gives the two fields as JS sees them, `none` for an
absent/non-string `emotion` and an absent `response`. -/
inductive ParseOutcome
  | parseError
  | parsed (emotion : Option String) (response : Option String)
  deriving DecidableEq, Repr

/-- Outcome of the single `fetch` of one gateway call.
`timeout` is the 15s `AbortError`; `netError` any other rejection (including a body
that fails `apiResponse.json()`); `httpError status` a response with `ok = false`;
`success bodyText parse` a 2xx response whose extracted
`candidates[0].content.parts[0].text` is `bodyText` (with `none`/`some ""` both falsy)
and whose `JSON.parse` outcome on that text is `parse`. -/
inductive FetchOutcome
  | timeout
  | netError
  | httpError (status : Nat)
  | success (bodyText : Option String) (parse : ParseOutcome)
  deriving DecidableEq, Repr

/-- Environment of one gateway call: the build-time default key
(`DEFAULT_GEMINI_API_KEY`, empty when the env var is absent), the fetch outcome,
and the random source feeding `getRandomFallback`. -/
structure NetEnv where
  defaultKey : String
  fetchResult : FetchOutcome
  rand : Nat
  deriving DecidableEq, Repr

/-- Result of one gateway call: the returned `HaruResponse`, the final status and
detail reported through `setGeminiStatus`, and whether `fetch` was reached. -/
structure GeminiResult where
  reply : HaruResponse
  status : GeminiStatus
  detail : String
  networkUsed : Bool
  deriving DecidableEq, Repr

/-- The credential actually used: the stored override when truthy, else the default
(`let apiKey = await AsyncStorage.getItem(...); if (apiKey) ... else apiKey = DEFAULT`). -/
def effectiveApiKey (net : NetEnv) (store : Storage) : String :=
  match getItem store API_KEY_STORAGE_KEY with
  | some k => if k = "" then net.defaultKey else k
  | none => net.defaultKey

/-- The early-exit result when no credential is available (`if (!apiKey)` branch). -/
def noApiKeyResult : GeminiResult :=
  { reply := ⟨"API 키가 설정되지 않았어요. 관리자 도구에서 키를 설정해주세요.", HaruEmotion.neutral⟩,
    status := GeminiStatus.error,
    detail := "API key is not set.",
    networkUsed := false }

/-- Everything from the `try { fetch ... }` onwards, branch by branch from the source.
The status recorded is the final one (`setGeminiStatus('ok')` on the success path is
overwritten by the later `error` call when the payload fails to parse). -/
def geminiFetchCase (net : NetEnv) : GeminiResult :=
  match net.fetchResult with
  | FetchOutcome.timeout =>
      { reply := getRandomFallback net.rand, status := GeminiStatus.error,
        detail := "Request timed out after 15s.", networkUsed := true }
  | FetchOutcome.netError =>
      { reply := getRandomFallback net.rand, status := GeminiStatus.error,
        detail := "Network request failed.", networkUsed := true }
  | FetchOutcome.httpError status =>
      if status = 503 then
        { reply := getRandomFallback net.rand, status := GeminiStatus.overloaded,
          detail := "503: The model is overloaded.", networkUsed := true }
      else if status = 404 then
        { reply := getRandomFallback net.rand, status := GeminiStatus.error,
          detail := "404: Endpoint not found or model error.", networkUsed := true }
      else
        { reply := getRandomFallback net.rand, status := GeminiStatus.error,
          detail := "HTTP " ++ toString status, networkUsed := true }
  | FetchOutcome.success bodyText parse =>
      match bodyText with
      | none =>
          { reply := getRandomFallback net.rand, status := GeminiStatus.error,
            detail := "Response text is missing.", networkUsed := true }
      | some t =>
          if t = "" then
            { reply := getRandomFallback net.rand, status := GeminiStatus.error,
              detail := "Response text is missing.", networkUsed := true }
          else
            match parse with
            | ParseOutcome.parseError =>
                { reply := ⟨t, HaruEmotion.neutral⟩, status := GeminiStatus.error,
                  detail := "AI response JSON parse error.", networkUsed := true }
            | ParseOutcome.parsed emotion response =>
                let finalEmotion : HaruEmotion :=
                  match emotion with
                  | some e => (emotionOfString e).getD HaruEmotion.neutral
                  | none => HaruEmotion.neutral
                let text : String :=
                  match response with
                  | some rt => if rt = "" then "..." else rt
                  | none => "..."
                { reply := ⟨text, finalEmotion⟩, status := GeminiStatus.ok,
                  detail := "", networkUsed := true }

/-- `getGeminiResponse`: one conversational turn against the remote service, never
throwing; credential resolution then the fetch/validation pipeline. -/
def getGeminiResponse (net : NetEnv) (store : Storage) : GeminiResult :=
  if effectiveApiKey net store = "" then noApiKeyResult
  else geminiFetchCase net

/-! ## Conversation state manager model (`AppStateContext`, in `src/constants/emotions.ts`) -/

/-- `sender` field of a `ChatMessage`. -/
inductive Sender
  | user
  | bot
  deriving DecidableEq, Repr

/-- `ChatMessage` record. -/
structure ChatMessage where
  id : String
  text : String
  sender : Sender
  timestamp : Nat
  state : Option HaruEmotion
  deriving DecidableEq, Repr

/-- `CompletedMission` record. -/
structure CompletedMission where
  id : String
  missionName : String
  date : String
  photoUri : Option String
  deriving DecidableEq, Repr

/-- `Mission` record from `src/constants/missions.ts`. -/
structure Mission where
  id : String
  text : String
  relatedEmotion : String
  deriving DecidableEq, Repr

/-- Storage keys (`STORAGE_KEYS`). -/
def DAY_COUNT_KEY : String := "harusali_dayCount"

def LAST_VISIT_DATE_KEY : String := "harusali_lastVisitDate"

def CHAT_HISTORY_KEY : String := "harusali_chatHistory"

def MISSION_HISTORY_KEY : String := "harusali_missionHistory"

def HARU_EMOTION_KEY : String := "harusali_haruEmotion"

def CHAT_COUNT_KEY : String := "harusali_chatCount"

def USE_AI_RESPONSE_KEY : String := "harusali_useAiResponse"

/-- TS string literal for a `sender`. -/
def senderToString : Sender → String
  | Sender.user => "user"
  | Sender.bot => "bot"

/-- JSON string escaping (quotes and backslashes), character by character. -/
def jsonEscapeChars : List Char → List Char
  | [] => []
  | c :: rest =>
      if c = '"' then '\\' :: '"' :: jsonEscapeChars rest
      else if c = '\\' then '\\' :: '\\' :: jsonEscapeChars rest
      else c :: jsonEscapeChars rest

/-- Model of JSON string escaping as used by `JSON.stringify`. -/
def jsonEscape (s : String) : String := ⟨jsonEscapeChars s.data⟩

/-- A JSON string literal. -/
def jsonStr (s : String) : String := "\"" ++ jsonEscape s ++ "\""

/-- `JSON.stringify` of one `ChatMessage` (an `undefined` optional field is omitted). -/
def encodeChatMessage (m : ChatMessage) : String :=
  "\x7b" ++ jsonStr "id" ++ ":" ++ jsonStr m.id ++ "," ++
    jsonStr "text" ++ ":" ++ jsonStr m.text ++ "," ++
    jsonStr "sender" ++ ":" ++ jsonStr (senderToString m.sender) ++ "," ++
    jsonStr "timestamp" ++ ":" ++ toString m.timestamp ++
    (match m.state with
     | some e => "," ++ jsonStr "state" ++ ":" ++ jsonStr (emotionToString e)
     | none => "") ++ "\x7d"

/-- `JSON.stringify` of the chat log array. -/
def encodeChatList (l : List ChatMessage) : String :=
  "[" ++ String.intercalate "," (l.map encodeChatMessage) ++ "]"

/-- `JSON.stringify` of one `CompletedMission`. -/
def encodeCompletedMission (c : CompletedMission) : String :=
  "\x7b" ++ jsonStr "id" ++ ":" ++ jsonStr c.id ++ "," ++
    jsonStr "missionName" ++ ":" ++ jsonStr c.missionName ++ "," ++
    jsonStr "date" ++ ":" ++ jsonStr c.date ++
    (match c.photoUri with
     | some p => "," ++ jsonStr "photoUri" ++ ":" ++ jsonStr p
     | none => "") ++ "\x7d"

/-- `JSON.stringify` of the mission history array. -/
def encodeMissionList (l : List CompletedMission) : String :=
  "[" ++ String.intercalate "," (l.map encodeCompletedMission) ++ "]"

/-- The provider's state: every `useState` cell of `AppStateProvider`, plus the
`AsyncStorage` contents it owns. `dayCount`/`chatCount` are JS numbers (`JsNum`)
because `parseInt` can produce `NaN`. -/
structure AppState where
  dayCount : JsNum
  chatHistory : List ChatMessage
  missionHistory : List CompletedMission
  haruEmotion : HaruEmotion
  chatCount : JsNum
  isAiThinking : Bool
  isInitialized : Bool
  useAiResponse : Bool
  geminiStatus : GeminiStatus
  lastGeminiError : String
  store : Storage
  deriving DecidableEq, Repr

/-- Observable effects of one turn, in the order the `await`s of `sendUserMessage`
and `getBotResponse` sequence them. -/
inductive Ev
  | persistChatHistory (h : List ChatMessage)
  | persistChatCount (n : JsNum)
  | gatewayCall (userText : String)
  | persistHaruEmotion (e : HaruEmotion)
  | turnComplete
  deriving DecidableEq, Repr

/-- The fixed local reply used when the AI toggle is off. -/
def disabledReply : HaruResponse :=
  ⟨"지금은 잠깐 다른 생각 중이야...", HaruEmotion.half_turned⟩

/-- The `try`/`catch` body of `getBotResponse`: either one gateway call or the fixed
local reply, together with the status/detail pushed through `setGeminiStatus`. -/
def botReplyOf (net : NetEnv) (s : AppState) : HaruResponse × GeminiStatus × String :=
  if s.useAiResponse then
    let r := getGeminiResponse net s.store
    (r.reply, r.status, r.detail)
  else
    (disabledReply, GeminiStatus.idle, "AI is disabled")

/-- `getBotResponse`: sets the thinking flag, obtains the reply (gateway or local),
then in `finally` clears the flag and persists the new `haruEmotion`; returns the bot
`ChatMessage` built from the reply. `botId`/`botTs` stand for `new Date().toISOString()`
and `Date.now()` at resolution time. -/
def getBotResponseT (net : NetEnv) (botId : String) (botTs : Nat) (message : ChatMessage)
    (s : AppState) : ChatMessage × AppState × List Ev :=
  let s0 : AppState := { s with isAiThinking := true }
  let reply := botReplyOf net s0
  let evs : List Ev := if s0.useAiResponse then [Ev.gatewayCall message.text] else []
  let s1 : AppState :=
    { s0 with
      geminiStatus := reply.2.1,
      lastGeminiError := reply.2.2,
      isAiThinking := false,
      haruEmotion := reply.1.state,
      store := setItem s0.store HARU_EMOTION_KEY (emotionToString reply.1.state) }
  (⟨botId, reply.1.text, Sender.bot, botTs, some reply.1.state⟩, s1,
    evs ++ [Ev.persistHaruEmotion reply.1.state])

/-- The first half of `sendUserMessage`: the user message appended to the log, the
turn counter incremented, and both persisted (the awaited `Promise.all` pair). -/
def afterUserPersist (message : ChatMessage) (s : AppState) : AppState :=
  let newHistory := s.chatHistory ++ [message]
  let newCount := jsAdd s.chatCount 1
  { s with
    chatHistory := newHistory,
    chatCount := newCount,
    store := setItem (setItem s.store CHAT_HISTORY_KEY (encodeChatList newHistory))
      CHAT_COUNT_KEY (jsNumToString newCount) }

/-- `sendUserMessage`: appends the user message, increments the turn counter,
persists both, runs `getBotResponse`, appends and persists the bot message.
Returns the final state and the ordered effect trace of the turn. -/
def sendUserMessageT (net : NetEnv) (botId : String) (botTs : Nat) (message : ChatMessage)
    (s : AppState) : AppState × List Ev :=
  let s1 := afterUserPersist message s
  let br := getBotResponseT net botId botTs message s1
  let finalHistory := s1.chatHistory ++ [br.1]
  let s3 : AppState :=
    { br.2.1 with
      chatHistory := finalHistory,
      store := setItem br.2.1.store CHAT_HISTORY_KEY (encodeChatList finalHistory) }
  (s3, [Ev.persistChatHistory s1.chatHistory, Ev.persistChatCount s1.chatCount] ++ br.2.2 ++
    [Ev.persistChatHistory finalHistory, Ev.turnComplete])

/-- The mid-turn state reached right after `sendUserMessage` has appended and persisted
the user message and `getBotResponse` has set the thinking flag — the `AwaitingReply`
state in which the gateway call is pending. -/
def beginTurn (message : ChatMessage) (s : AppState) : AppState :=
  { afterUserPersist message s with isAiThinking := true }

/-- One UI submission: the typed text plus the clock and gateway environment of the
turn it would start. -/
structure SubmitInput where
  inputText : String
  now : Nat
  net : NetEnv
  botId : String
  botTs : Nat
  deriving Repr

/-- The user `ChatMessage` that `handleSend` builds
(`id: Date.now().toString(), sender: 'user'`). -/
def userMsgOf (inp : SubmitInput) : ChatMessage :=
  ⟨toString inp.now, inp.inputText, Sender.user, inp.now, none⟩

/-- `handleSend` from `HomeScreen`: the guard
`inputText.trim().length === 0 || isAiThinking || !isInitialized` rejects the
submission as a no-op; otherwise the full turn runs. -/
def handleSend (inp : SubmitInput) (s : AppState) : AppState :=
  if jsTrim inp.inputText = "" ∨ s.isAiThinking = true ∨ s.isInitialized = false then s
  else (sendUserMessageT inp.net inp.botId inp.botTs (userMsgOf inp) s).1

/-- A sequence of UI submissions, in order. -/
def runTurns (inputs : List SubmitInput) (s : AppState) : AppState :=
  inputs.foldl (fun st i => handleSend i st) s

/-- The `newCompletion` record built by `completeMission`; `nowIso` stands for
`new Date().toISOString()` at completion time. -/
def mkCompletion (nowIso : String) (mission : Mission) (photoUri : Option String) :
    CompletedMission :=
  ⟨nowIso, mission.text, isoDatePart nowIso, photoUri⟩

/-- `completeMission`: prepends a new completion record and persists the history. -/
def completeMission (nowIso : String) (mission : Mission) (photoUri : Option String)
    (s : AppState) : AppState :=
  let newHistory := mkCompletion nowIso mission photoUri :: s.missionHistory
  { s with
    missionHistory := newHistory,
    store := setItem s.store MISSION_HISTORY_KEY (encodeMissionList newHistory) }

/-- The sentinel substring `updateApiKey` looks for in the probe reply. -/
def notConfiguredSentinel : String := "API 키가 설정되지 않았어요"

/-- `updateApiKey`: speculatively persists the new key, probes the gateway once with
`'hello'`, and on a sentinel match restores the old key (or removes the key if the old
one was absent/falsy) and reports failure. -/
def updateApiKey (net : NetEnv) (newKey : String) (s : AppState) : Bool × AppState :=
  let oldKey := getItem s.store API_KEY_STORAGE_KEY
  let store1 := setItem s.store API_KEY_STORAGE_KEY newKey
  let r := getGeminiResponse net store1
  let s1 : AppState := { s with store := store1, geminiStatus := r.status, lastGeminiError := r.detail }
  if jsIncludes r.reply.text notConfiguredSentinel then
    let store2 :=
      match oldKey with
      | some k => if k = "" then removeItem s1.store API_KEY_STORAGE_KEY
                  else setItem s1.store API_KEY_STORAGE_KEY k
      | none => removeItem s1.store API_KEY_STORAGE_KEY
    (false, { s1 with store := store2 })
  else
    (true, s1)

/-- Environment of one `loadState` run: today's calendar date and the `JSON.parse`
oracles for the three JSON-encoded values (`none` models a parse exception). -/
structure LoadEnv where
  today : String
  decodeChat : String → Option (List ChatMessage)
  decodeMissions : String → Option (List CompletedMission)
  decodeBool : String → Option Bool

/-- `loadState`: the one-time initial load. Reads every key, applies the day-count
advancement rule (increment by one iff the stored last-visit date is truthy and
differs from today, then persist date and count), and falls back per field as the
source does: inner `try`/`catch` to `[]` for the two JSON logs, type-guard to
`neutral` for the emotion, `parseInt`-with-`NaN` for the two counters, and the
outer `catch` leaving the AI toggle at its default when its `JSON.parse` throws. -/
def loadState (env : LoadEnv) (store : Storage) : AppState :=
  let lastVisitDate := getItem store LAST_VISIT_DATE_KEY
  let storedDayCount := getItem store DAY_COUNT_KEY
  let base : JsNum :=
    match storedDayCount with
    | none => some 1
    | some s => if s = "" then some 1 else jsParseInt s
  let lastVisitTruthy : Bool :=
    match lastVisitDate with
    | some d => d != ""
    | none => false
  let currentDayCount : JsNum :=
    if lastVisitDate ≠ some env.today then
      (if lastVisitTruthy then jsAdd base 1 else base)
    else base
  let store1 :=
    if lastVisitDate ≠ some env.today then
      setItem (setItem store LAST_VISIT_DATE_KEY env.today) DAY_COUNT_KEY
        (jsNumToString currentDayCount)
    else store
  let chatHistory : List ChatMessage :=
    match getItem store CHAT_HISTORY_KEY with
    | none => []
    | some s => if s = "" then [] else (env.decodeChat s).getD []
  let missionHistory : List CompletedMission :=
    match getItem store MISSION_HISTORY_KEY with
    | none => []
    | some s => if s = "" then [] else (env.decodeMissions s).getD []
  let haruEmotion : HaruEmotion :=
    match getItem store HARU_EMOTION_KEY with
    | some e => (emotionOfString e).getD HaruEmotion.neutral
    | none => HaruEmotion.neutral
  let chatCount : JsNum :=
    match getItem store CHAT_COUNT_KEY with
    | none => some 0
    | some s => if s = "" then some 0 else jsParseInt s
  let useAiResponse : Bool :=
    match getItem store USE_AI_RESPONSE_KEY with
    | none => true
    | some s => (env.decodeBool s).getD true
  { dayCount := currentDayCount, chatHistory := chatHistory,
    missionHistory := missionHistory, haruEmotion := haruEmotion,
    chatCount := chatCount, isAiThinking := false, isInitialized := true,
    useAiResponse := useAiResponse, geminiStatus := GeminiStatus.idle,
    lastGeminiError := "", store := store1 }

/-- Flattens a list of (user, bot) message pairs into the interleaved log they form. -/
def flattenPairs : List (ChatMessage × ChatMessage) → List ChatMessage
  | [] => []
  | p :: rest => p.1 :: p.2 :: flattenPairs rest

/-! ## Concrete instances used by witness theorems -/

/-- A gateway environment whose fetch succeeds with a well-formed payload. -/
def wNetOk : NetEnv :=
  ⟨"buildkey", FetchOutcome.success (some "payload")
    (ParseOutcome.parsed (some "relaxed_smile") (some "반가워")), 3⟩

/-- A gateway environment whose fetch returns HTTP 503. -/
def wNet503 : NetEnv := ⟨"buildkey", FetchOutcome.httpError 503, 1⟩

/-- A gateway environment with no build-time key and a failing network. -/
def wNetNoKey : NetEnv := ⟨"", FetchOutcome.netError, 0⟩

/-- A freshly initialized idle provider state. -/
def wState : AppState :=
  ⟨some 1, [], [], HaruEmotion.neutral, some 0, false, true, true, GeminiStatus.idle, "", []⟩

/-- The idle state while a turn is awaiting its reply. -/
def wThinking : AppState := { wState with isAiThinking := true }

/-- A provider state before initial load has finished. -/
def wUninit : AppState := { wState with isInitialized := false }

/-- A provider state holding a stored credential `keyA`. -/
def wStoreA : AppState := { wState with store := [(API_KEY_STORAGE_KEY, "keyA")] }

/-- A storage whose credential override is the empty string. -/
def wEmptyKeyStore : Storage := [(API_KEY_STORAGE_KEY, "")]

/-- A concrete user chat message. -/
def wMsg : ChatMessage := ⟨"100", "hello", Sender.user, 100, none⟩

/-- A concrete UI submission. -/
def wInp : SubmitInput := ⟨"hi", 100, wNetOk, "2024-01-01T00:00:01.000Z", 101⟩

/-- A second concrete UI submission. -/
def wInp2 : SubmitInput := ⟨"second", 200, wNet503, "2024-01-01T00:00:02.000Z", 201⟩

/-- A concrete mission from the catalog. -/
def wMission : Mission := ⟨"m01", "책상을 정리해보자! 하루와 같이 정리하며 친해지자.", "lethargic"⟩

/-- A load environment for 2024-01-03 whose JSON decoders reject every string. -/
def cLoadEnv : LoadEnv := ⟨"2024-01-03", fun _ => none, fun _ => none, fun _ => none⟩

/-- A stored state whose numeric counters are non-numeric garbage. -/
def cBadStore : Storage :=
  [(DAY_COUNT_KEY, "abc"), (CHAT_COUNT_KEY, "xyz"), (LAST_VISIT_DATE_KEY, "2024-01-03")]

/-- A stored state last visited on 2024-01-01 with a day count of 4. -/
def cVisitStore : Storage :=
  [(DAY_COUNT_KEY, "4"), (LAST_VISIT_DATE_KEY, "2024-01-01")]

/-- A stored state whose JSON-encoded values are all corrupt. -/
def cCorruptStore : Storage :=
  [(CHAT_HISTORY_KEY, "notjson"), (MISSION_HISTORY_KEY, "notjson"),
   (HARU_EMOTION_KEY, "happy"), (USE_AI_RESPONSE_KEY, "notjson"),
   (LAST_VISIT_DATE_KEY, "2024-01-03")]

/-! ## Theorems -/

theorem getItem_setItem_self (store : Storage) (k v : String) :
    getItem (setItem store k v) k = some v := by
  simp [getItem, setItem, List.find?]

theorem find?_filter_ne (store : Storage) (k k' : String) (h : k' ≠ k) :
    List.find? (fun kv => kv.1 == k') (List.filter (fun kv => kv.1 != k) store)
      = List.find? (fun kv => kv.1 == k') store := by
  induction store with
  | nil => rfl
  | cons hd tl ih =>
    by_cases hk : hd.1 = k
    · have h1 : (hd.1 != k) = false := by simp [hk]
      have h2 : (hd.1 == k') = false := by
        simp only [beq_eq_false_iff_ne, ne_eq]
        intro he; exact h (by rw [← he, hk])
      simp [List.filter, List.find?, h1, h2, ih]
    · have h1 : (hd.1 != k) = true := by simp [hk]
      by_cases hk' : hd.1 = k'
      · have h3 : (k' != k) = true := by simp [h]
        simp [List.filter, List.find?, h1, hk', h3]
      · have h2 : (hd.1 == k') = false := by simp [hk']
        simp [List.filter, List.find?, h1, h2, ih]

theorem getItem_setItem_ne (store : Storage) (k k' v : String) (h : k' ≠ k) :
    getItem (setItem store k v) k' = getItem store k' := by
  have hbeq : (k == k') = false := by
    simp only [beq_eq_false_iff_ne, ne_eq]
    exact fun he => h he.symm
  simp [getItem, setItem, List.find?, hbeq, find?_filter_ne store k k' h]

theorem getItem_removeItem_self (store : Storage) (k : String) :
    getItem (removeItem store k) k = none := by
  simp only [getItem, removeItem]
  induction store with
  | nil => rfl
  | cons hd tl ih =>
    by_cases hk : hd.1 = k
    · have h1 : (hd.1 != k) = false := by simp [hk]
      simp [List.filter, h1, ih]
    · have h1 : (hd.1 != k) = true := by simp [hk]
      have h2 : (hd.1 == k) = false := by simp [hk]
      simp [List.filter, List.find?, h1, h2, ih]

theorem getRandomFallback_mem (r : Nat) : getRandomFallback r ∈ FALLBACK_MESSAGES := by
  have hlen : FALLBACK_MESSAGES.length = 2 := rfl
  rcases Nat.mod_two_eq_zero_or_one r with h | h <;>
    simp [getRandomFallback, hlen, h, List.getD]

theorem getRandomFallback_text_ne (r : Nat) : (getRandomFallback r).text ≠ "" := by
  have hlen : FALLBACK_MESSAGES.length = 2 := rfl
  rcases Nat.mod_two_eq_zero_or_one r with h | h <;>
    simp [getRandomFallback, hlen, h, List.getD, FALLBACK_MESSAGES]

theorem mem_HARU_EMOTIONS (e : HaruEmotion) : e ∈ HARU_EMOTIONS := by
  cases e <;> simp [HARU_EMOTIONS]

theorem geminiFetchCase_networkUsed (net : NetEnv) :
    (geminiFetchCase net).networkUsed = true := by
  rcases net with ⟨dk, fr, r⟩
  rcases fr with _ | _ | status | ⟨bodyText, parse⟩
  · rfl
  · rfl
  · simp only [geminiFetchCase]
    split <;> try rfl
    split <;> rfl
  · rcases bodyText with _ | t
    · rfl
    · simp only [geminiFetchCase]
      split
      · rfl
      · rcases parse with _ | ⟨emotion, response⟩ <;> rfl

theorem geminiFetchCase_text_ne (net : NetEnv) :
    (geminiFetchCase net).reply.text ≠ "" := by
  rcases net with ⟨dk, fr, r⟩
  rcases fr with _ | _ | status | ⟨bodyText, parse⟩
  · exact getRandomFallback_text_ne r
  · exact getRandomFallback_text_ne r
  · simp only [geminiFetchCase]
    split
    · exact getRandomFallback_text_ne r
    · split <;> exact getRandomFallback_text_ne r
  · rcases bodyText with _ | t
    · exact getRandomFallback_text_ne r
    · simp only [geminiFetchCase]
      split
      · exact getRandomFallback_text_ne r
      · rcases parse with _ | ⟨emotion, response⟩
        · simpa using (by assumption : ¬t = "")
        · rcases response with _ | rt
          · simp
          · by_cases hrt : rt = "" <;> simp [hrt]

/-- C1: every gateway call resolves (the model is a total function) to a reply with
non-empty text whose emotional state is one of the 5 `HaruEmotion` values, across all
failure modes (missing credential, timeout, non-success HTTP status, malformed JSON
payload, unknown emotion value) as well as on success. -/
theorem c1_gateway_always_valid_reply (net : NetEnv) (store : Storage) :
    (getGeminiResponse net store).reply.text ≠ "" ∧
      (getGeminiResponse net store).reply.state ∈ HARU_EMOTIONS := by
  refine ⟨?_, mem_HARU_EMOTIONS _⟩
  simp only [getGeminiResponse]
  split
  · simp [noApiKeyResult]
  · exact geminiFetchCase_text_ne net

/-- C8: when the outbound request yields a non-success HTTP status (and a credential
was available, so the request was actually issued), the reported health value is
`overloaded` exactly when the status is 503 and `error` for every other non-success
status, and the returned reply is drawn from the fixed fallback pool. -/
theorem c8_http_error_health_and_fallback (net : NetEnv) (store : Storage) (status : Nat)
    (hfetch : net.fetchResult = FetchOutcome.httpError status)
    (hkey : effectiveApiKey net store ≠ "") :
    ((getGeminiResponse net store).status = GeminiStatus.overloaded ↔ status = 503) ∧
      (status ≠ 503 → (getGeminiResponse net store).status = GeminiStatus.error) ∧
      (getGeminiResponse net store).reply ∈ FALLBACK_MESSAGES := by
  have hmain : getGeminiResponse net store = geminiFetchCase net := by
    simp [getGeminiResponse, hkey]
  rw [hmain]
  simp only [geminiFetchCase, hfetch]
  by_cases h503 : status = 503
  · simp [h503, getRandomFallback_mem net.rand]
  · by_cases h404 : status = 404 <;>
      simp [h503, h404, getRandomFallback_mem net.rand]

/-- C10: an empty-string stored credential override behaves exactly like an absent one
(the gateway result is unchanged if the override key is removed), and the fixed
"not configured" early exit — neutral state, error health, no network request —
happens precisely when the override is empty/absent and the build-time default key is
empty. -/
theorem c10_empty_override_falls_back (net : NetEnv) (store : Storage) :
    ((getItem store API_KEY_STORAGE_KEY = some "" ∨
        getItem store API_KEY_STORAGE_KEY = none) →
      getGeminiResponse net store
        = getGeminiResponse net (removeItem store API_KEY_STORAGE_KEY)) ∧
      (getGeminiResponse net store = noApiKeyResult ↔
        ((getItem store API_KEY_STORAGE_KEY = some "" ∨
            getItem store API_KEY_STORAGE_KEY = none) ∧ net.defaultKey = "")) := by
  constructor
  · intro h
    have h1 : effectiveApiKey net store = net.defaultKey := by
      rcases h with h | h <;> simp [effectiveApiKey, h]
    have h2 : effectiveApiKey net (removeItem store API_KEY_STORAGE_KEY)
        = net.defaultKey := by
      simp [effectiveApiKey, getItem_removeItem_self]
    simp [getGeminiResponse, h1, h2]
  · constructor
    · intro h
      have hkey : effectiveApiKey net store = "" := by
        by_contra hne
        have : getGeminiResponse net store = geminiFetchCase net := by
          simp [getGeminiResponse, hne]
        rw [this] at h
        have hn : (geminiFetchCase net).networkUsed = true := geminiFetchCase_networkUsed net
        rw [h] at hn
        simp [noApiKeyResult] at hn
      rcases hstored : getItem store API_KEY_STORAGE_KEY with _ | k
      · refine ⟨Or.inr rfl, ?_⟩
        simpa [effectiveApiKey, hstored] using hkey
      · by_cases hk : k = ""
        · subst hk
          refine ⟨Or.inl rfl, ?_⟩
          simpa [effectiveApiKey, hstored] using hkey
        · exfalso
          rw [effectiveApiKey, hstored] at hkey
          simp [hk] at hkey
    · rintro ⟨h1, h2⟩
      have hkey : effectiveApiKey net store = "" := by
        rcases h1 with h | h <;> simp [effectiveApiKey, h, h2]
      simp [getGeminiResponse, hkey]

theorem handleSend_noop (inp : SubmitInput) (s : AppState)
    (h : s.isAiThinking = true ∨ s.isInitialized = false) : handleSend inp s = s := by
  rcases h with h | h <;> simp [handleSend, h]

theorem foldl_handleSend_noop (inputs : List SubmitInput) (s : AppState)
    (h : s.isAiThinking = true) :
    List.foldl (fun st i => handleSend i st) s inputs = s := by
  induction inputs with
  | nil => rfl
  | cons i rest ih => rw [List.foldl_cons, handleSend_noop i s (Or.inl h), ih]

/-- C2: while a turn is awaiting its reply the `isAiThinking` flag is set (it is set by
`beginTurn`, the state right after a submission is accepted), and every submission made
in that state — or before initial load finishes — is a no-op: any sequence of rapid
submissions leaves the state, in particular the chat log and the chat turn count,
unchanged. -/
theorem c2_single_flight (msg : ChatMessage) (s₀ s u : AppState) (inputs : List SubmitInput)
    (inp : SubmitInput) (hthink : s.isAiThinking = true)
    (huninit : u.isInitialized = false) :
    (beginTurn msg s₀).isAiThinking = true ∧
      List.foldl (fun st i => handleSend i st) s inputs = s ∧
      (List.foldl (fun st i => handleSend i st) s inputs).chatHistory = s.chatHistory ∧
      (List.foldl (fun st i => handleSend i st) s inputs).chatCount = s.chatCount ∧
      handleSend inp u = u := by
  have hf := foldl_handleSend_noop inputs s hthink
  exact ⟨rfl, hf, by rw [hf], by rw [hf], handleSend_noop inp u (Or.inr huninit)⟩

theorem c2_witness :
    wThinking.isAiThinking = true ∧ wUninit.isInitialized = false ∧
      ((beginTurn wMsg wState).isAiThinking = true ∧
        List.foldl (fun st i => handleSend i st) wThinking [wInp, wInp2] = wThinking ∧
        (List.foldl (fun st i => handleSend i st) wThinking [wInp, wInp2]).chatHistory
            = wThinking.chatHistory ∧
        (List.foldl (fun st i => handleSend i st) wThinking [wInp, wInp2]).chatCount
            = wThinking.chatCount ∧
        handleSend wInp wUninit = wUninit) :=
  ⟨rfl, rfl, c2_single_flight wMsg wState wThinking wUninit [wInp, wInp2] wInp rfl rfl⟩

/-- C3: the day-count advancement rule at initial load. If a truthy last-visit date is
stored and differs from today, the day count is incremented by exactly one (whatever
the calendar distance) and the new date and count are persisted; if the stored date
equals today, the count and the store are unchanged; if no last-visit date was stored
(first run), the count initializes to 1 without incrementing and today is persisted. -/
theorem c3_day_count_advancement (env : LoadEnv) (store : Storage) :
    (∀ d c n, getItem store LAST_VISIT_DATE_KEY = some d → d ≠ "" → d ≠ env.today →
      getItem store DAY_COUNT_KEY = some c → c ≠ "" → jsParseInt c = some n →
      (loadState env store).dayCount = some (n + 1) ∧
        getItem (loadState env store).store LAST_VISIT_DATE_KEY = some env.today ∧
        getItem (loadState env store).store DAY_COUNT_KEY = some (toString (n + 1))) ∧
      (∀ c n, getItem store LAST_VISIT_DATE_KEY = some env.today →
        getItem store DAY_COUNT_KEY = some c → c ≠ "" → jsParseInt c = some n →
        (loadState env store).dayCount = some n ∧ (loadState env store).store = store) ∧
      (getItem store LAST_VISIT_DATE_KEY = none → getItem store DAY_COUNT_KEY = none →
        (loadState env store).dayCount = some 1 ∧
          getItem (loadState env store).store LAST_VISIT_DATE_KEY = some env.today ∧
          getItem (loadState env store).store DAY_COUNT_KEY = some "1") := by
  have hkne : LAST_VISIT_DATE_KEY ≠ DAY_COUNT_KEY := by decide
  have hone : toString (1 : Int) = "1" := rfl
  refine ⟨?_, ?_, ?_⟩
  · intro d c n hd hdne hdtoday hc hcne hn
    have htruthy : (d != "") = true := by simp [hdne]
    simp [loadState, hd, hc, hdtoday, hcne, htruthy, hn, jsAdd, jsNumToString,
      getItem_setItem_self, getItem_setItem_ne _ _ _ _ hkne]
  · intro c n hd hc hcne hn
    have hcond : ¬(getItem store LAST_VISIT_DATE_KEY ≠ some env.today) := by
      rw [hd]; simp
    simp [loadState, hd, hc, hcond, hcne, hn]
  · intro hd hc
    simp [loadState, hd, hc, jsNumToString, hone,
      getItem_setItem_self, getItem_setItem_ne _ _ _ _ hkne]

theorem c3_witness :
    getItem cVisitStore LAST_VISIT_DATE_KEY = some "2024-01-01" ∧
      ("2024-01-01" : String) ≠ "" ∧ ("2024-01-01" : String) ≠ cLoadEnv.today ∧
      getItem cVisitStore DAY_COUNT_KEY = some "4" ∧ ("4" : String) ≠ "" ∧
      jsParseInt "4" = some 4 ∧
      ((loadState cLoadEnv cVisitStore).dayCount = some (4 + 1) ∧
        getItem (loadState cLoadEnv cVisitStore).store LAST_VISIT_DATE_KEY
            = some cLoadEnv.today ∧
        getItem (loadState cLoadEnv cVisitStore).store DAY_COUNT_KEY
            = some (toString ((4 : Int) + 1))) :=
  ⟨rfl, by decide, by decide, rfl, by decide, by decide,
    (c3_day_count_advancement cLoadEnv cVisitStore).1 "2024-01-01" "4" 4 rfl (by decide)
      (by decide) rfl (by decide) (by decide)⟩

/-- C4: within one turn (with the AI toggle on), the effect trace of `sendUserMessage`
persists the chat history containing the user message, and the incremented chat turn
count, strictly before the gateway call, and persists the history containing the bot
message strictly before the turn completes. -/
theorem c4_persist_ordering (net : NetEnv) (botId : String) (botTs : Nat)
    (m : ChatMessage) (s : AppState) (hai : s.useAiResponse = true) :
    ∃ bm : ChatMessage,
      ∃ iu ic j k l : Nat, iu < j ∧ ic < j ∧ j < k ∧ k < l ∧
        (sendUserMessageT net botId botTs m s).2.get? iu
            = some (Ev.persistChatHistory (s.chatHistory ++ [m])) ∧
        (sendUserMessageT net botId botTs m s).2.get? ic
            = some (Ev.persistChatCount (jsAdd s.chatCount 1)) ∧
        (sendUserMessageT net botId botTs m s).2.get? j
            = some (Ev.gatewayCall m.text) ∧
        (sendUserMessageT net botId botTs m s).2.get? k
            = some (Ev.persistChatHistory (s.chatHistory ++ [m] ++ [bm])) ∧
        (sendUserMessageT net botId botTs m s).2.get? l = some Ev.turnComplete ∧
        bm.sender = Sender.bot := by
  refine ⟨(getBotResponseT net botId botTs m (afterUserPersist m s)).1, 0, 1, 2, 4, 5,
      by omega, by omega, by omega, by omega, ?_, ?_, ?_, ?_, ?_, ?_⟩ <;>
    simp [sendUserMessageT, getBotResponseT, afterUserPersist, hai]

theorem c4_witness :
    wState.useAiResponse = true ∧
      (∃ bm : ChatMessage,
        ∃ iu ic j k l : Nat, iu < j ∧ ic < j ∧ j < k ∧ k < l ∧
          (sendUserMessageT wNetOk "bid" 42 wMsg wState).2.get? iu
              = some (Ev.persistChatHistory (wState.chatHistory ++ [wMsg])) ∧
          (sendUserMessageT wNetOk "bid" 42 wMsg wState).2.get? ic
              = some (Ev.persistChatCount (jsAdd wState.chatCount 1)) ∧
          (sendUserMessageT wNetOk "bid" 42 wMsg wState).2.get? j
              = some (Ev.gatewayCall wMsg.text) ∧
          (sendUserMessageT wNetOk "bid" 42 wMsg wState).2.get? k
              = some (Ev.persistChatHistory (wState.chatHistory ++ [wMsg] ++ [bm])) ∧
          (sendUserMessageT wNetOk "bid" 42 wMsg wState).2.get? l
              = some Ev.turnComplete ∧
          bm.sender = Sender.bot) :=
  ⟨rfl, c4_persist_ordering wNetOk "bid" 42 wMsg wState rfl⟩

theorem sendUserMessageT_fst_spec (net : NetEnv) (botId : String) (botTs : Nat)
    (m : ChatMessage) (s : AppState) :
    ∃ bm : ChatMessage,
      (sendUserMessageT net botId botTs m s).1.chatHistory = s.chatHistory ++ [m, bm] ∧
      bm.sender = Sender.bot ∧
      (sendUserMessageT net botId botTs m s).1.isAiThinking = false ∧
      (sendUserMessageT net botId botTs m s).1.isInitialized = s.isInitialized := by
  refine ⟨(getBotResponseT net botId botTs m (afterUserPersist m s)).1, ?_, rfl, rfl, rfl⟩
  simp [sendUserMessageT, afterUserPersist]

theorem runTurns_spec (inputs : List SubmitInput) (s : AppState)
    (hinit : s.isInitialized = true) (hthink : s.isAiThinking = false)
    (htext : ∀ i ∈ inputs, jsTrim i.inputText ≠ "") :
    ∃ pairs : List (ChatMessage × ChatMessage),
      (runTurns inputs s).chatHistory = s.chatHistory ++ flattenPairs pairs ∧
        pairs.map (fun p => p.1.text) = inputs.map SubmitInput.inputText ∧
        ∀ p ∈ pairs, p.1.sender = Sender.user ∧ p.2.sender = Sender.bot := by
  induction inputs generalizing s with
  | nil => exact ⟨[], by simp [runTurns, flattenPairs], rfl, by simp⟩
  | cons i rest ih =>
    have hti : jsTrim i.inputText ≠ "" := htext i (by simp)
    have hacc : handleSend i s = (sendUserMessageT i.net i.botId i.botTs (userMsgOf i) s).1 := by
      simp [handleSend, hti, hthink, hinit]
    obtain ⟨bm, hch, hbm, hth, hin⟩ :=
      sendUserMessageT_fst_spec i.net i.botId i.botTs (userMsgOf i) s
    have hstep : runTurns (i :: rest) s
        = runTurns rest ((sendUserMessageT i.net i.botId i.botTs (userMsgOf i) s).1) := by
      simp [runTurns, List.foldl_cons, hacc]
    obtain ⟨pairs, hp1, hp2, hp3⟩ :=
      ih ((sendUserMessageT i.net i.botId i.botTs (userMsgOf i) s).1)
        (by rw [hin, hinit]) hth (fun j hj => htext j (by simp [hj]))
    refine ⟨(userMsgOf i, bm) :: pairs, ?_, ?_, ?_⟩
    · rw [hstep, hp1, hch]
      simp [flattenPairs, userMsgOf]
    · simp [hp2, userMsgOf]
    · intro p hp
      rcases List.mem_cons.mp hp with rfl | hp
      · exact ⟨rfl, hbm⟩
      · exact hp3 p hp

theorem flattenPairs_length (l : List (ChatMessage × ChatMessage)) :
    (flattenPairs l).length = 2 * l.length := by
  induction l with
  | nil => rfl
  | cons p rest ih => simp [flattenPairs, ih]; omega

/-- C5: starting from an empty log, N accepted turns leave the chat log as exactly N
(user, bot) pairs in submission order — 2N messages, the user texts matching the
submitted texts in order — and every `handleSend` call (accepted or not) only ever
appends to the existing log, never altering, removing or reordering prior messages. -/
theorem c5_append_only_log (inputs : List SubmitInput) (s₀ : AppState)
    (h0 : s₀.chatHistory = []) (hinit : s₀.isInitialized = true)
    (hthink : s₀.isAiThinking = false)
    (htext : ∀ i ∈ inputs, jsTrim i.inputText ≠ "") :
    (∃ pairs : List (ChatMessage × ChatMessage),
      (runTurns inputs s₀).chatHistory = flattenPairs pairs ∧
        (runTurns inputs s₀).chatHistory.length = 2 * inputs.length ∧
        pairs.map (fun p => p.1.text) = inputs.map SubmitInput.inputText ∧
        ∀ p ∈ pairs, p.1.sender = Sender.user ∧ p.2.sender = Sender.bot) ∧
      ∀ (i : SubmitInput) (t : AppState),
        ∃ tail, (handleSend i t).chatHistory = t.chatHistory ++ tail := by
  constructor
  · obtain ⟨pairs, hp1, hp2, hp3⟩ := runTurns_spec inputs s₀ hinit hthink htext
    have hlenp : pairs.length = inputs.length := by
      have := congrArg List.length hp2
      simpa using this
    refine ⟨pairs, by rw [hp1, h0]; rfl, ?_, hp2, hp3⟩
    rw [hp1, h0]
    simp [flattenPairs_length, hlenp]
  · intro i t
    by_cases h : jsTrim i.inputText = "" ∨ t.isAiThinking = true ∨ t.isInitialized = false
    · exact ⟨[], by simp [handleSend, h]⟩
    · obtain ⟨bm, hch, hbm, _, _⟩ :=
        sendUserMessageT_fst_spec i.net i.botId i.botTs (userMsgOf i) t
      refine ⟨[userMsgOf i, bm], ?_⟩
      rw [handleSend, if_neg h]
      exact hch

theorem c5_witness :
    wState.chatHistory = [] ∧ wState.isInitialized = true ∧ wState.isAiThinking = false ∧
      (∀ i ∈ [wInp, wInp2], jsTrim i.inputText ≠ "") ∧
      ((∃ pairs : List (ChatMessage × ChatMessage),
        (runTurns [wInp, wInp2] wState).chatHistory = flattenPairs pairs ∧
          (runTurns [wInp, wInp2] wState).chatHistory.length = 2 * [wInp, wInp2].length ∧
          pairs.map (fun p => p.1.text) = [wInp, wInp2].map SubmitInput.inputText ∧
          ∀ p ∈ pairs, p.1.sender = Sender.user ∧ p.2.sender = Sender.bot) ∧
        ∀ (i : SubmitInput) (t : AppState),
          ∃ tail, (handleSend i t).chatHistory = t.chatHistory ++ tail) :=
  ⟨rfl, rfl, rfl, by decide,
    c5_append_only_log [wInp, wInp2] wState rfl rfl rfl (by decide)⟩

/-- C6: credential update with speculative persist and probe. If the probe reply
matches the "not configured" sentinel, the previous truthy credential is restored (or
the key removed when none/falsy existed) and the call reports `false`; if the probe
does not match the sentinel, the new key stays persisted and the call reports `true`. -/
theorem c6_update_api_key_rollback (net : NetEnv) (newKey : String) (s : AppState) :
    (∀ a, getItem s.store API_KEY_STORAGE_KEY = some a → a ≠ "" →
      jsIncludes (getGeminiResponse net (setItem s.store API_KEY_STORAGE_KEY newKey)).reply.text
          notConfiguredSentinel = true →
      (updateApiKey net newKey s).1 = false ∧
        getItem (updateApiKey net newKey s).2.store API_KEY_STORAGE_KEY = some a) ∧
      (getItem s.store API_KEY_STORAGE_KEY = none →
        jsIncludes (getGeminiResponse net (setItem s.store API_KEY_STORAGE_KEY newKey)).reply.text
            notConfiguredSentinel = true →
        (updateApiKey net newKey s).1 = false ∧
          getItem (updateApiKey net newKey s).2.store API_KEY_STORAGE_KEY = none) ∧
      (jsIncludes (getGeminiResponse net (setItem s.store API_KEY_STORAGE_KEY newKey)).reply.text
          notConfiguredSentinel = false →
        (updateApiKey net newKey s).1 = true ∧
          getItem (updateApiKey net newKey s).2.store API_KEY_STORAGE_KEY = some newKey) := by
  refine ⟨?_, ?_, ?_⟩
  · intro a ha hane hsent
    simp [updateApiKey, ha, hane, hsent, getItem_setItem_self]
  · intro ha hsent
    simp [updateApiKey, ha, hsent, getItem_removeItem_self]
  · intro hsent
    simp [updateApiKey, hsent, getItem_setItem_self]

theorem c6_witness :
    getItem wStoreA.store API_KEY_STORAGE_KEY = some "keyA" ∧ ("keyA" : String) ≠ "" ∧
      jsIncludes
          (getGeminiResponse wNetNoKey (setItem wStoreA.store API_KEY_STORAGE_KEY "")).reply.text
          notConfiguredSentinel = true ∧
      ((updateApiKey wNetNoKey "" wStoreA).1 = false ∧
        getItem (updateApiKey wNetNoKey "" wStoreA).2.store API_KEY_STORAGE_KEY
            = some "keyA") :=
  ⟨rfl, by decide, by decide,
    (c6_update_api_key_rollback wNetNoKey "" wStoreA).1 "keyA" rfl (by decide) (by decide)⟩

/-- C9: completing the same mission twice (at distinct completion instants) creates two
independent records — no deduplication — each with its own id and a calendar date
derived from its completion time, prepended most-recent-first, and the conversation
state (chat log, chat count, emotional state, day count) is untouched. -/
theorem c9_complete_mission_twice (nowIso1 nowIso2 : String) (m : Mission)
    (p1 p2 : Option String) (s : AppState) (hne : nowIso1 ≠ nowIso2) :
    (completeMission nowIso2 m p2 (completeMission nowIso1 m p1 s)).missionHistory
        = mkCompletion nowIso2 m p2 :: mkCompletion nowIso1 m p1 :: s.missionHistory ∧
      (mkCompletion nowIso2 m p2).id ≠ (mkCompletion nowIso1 m p1).id ∧
      (mkCompletion nowIso1 m p1).date = isoDatePart nowIso1 ∧
      (mkCompletion nowIso2 m p2).date = isoDatePart nowIso2 ∧
      (completeMission nowIso2 m p2 (completeMission nowIso1 m p1 s)).chatHistory
          = s.chatHistory ∧
      (completeMission nowIso2 m p2 (completeMission nowIso1 m p1 s)).chatCount
          = s.chatCount ∧
      (completeMission nowIso2 m p2 (completeMission nowIso1 m p1 s)).haruEmotion
          = s.haruEmotion ∧
      (completeMission nowIso2 m p2 (completeMission nowIso1 m p1 s)).dayCount
          = s.dayCount := by
  refine ⟨rfl, ?_, rfl, rfl, rfl, rfl, rfl, rfl⟩
  simpa [mkCompletion] using fun h => hne h.symm

theorem c9_witness :
    ("2024-01-01T10:00:00.000Z" : String) ≠ "2024-01-02T11:30:00.000Z" ∧
      ((completeMission "2024-01-02T11:30:00.000Z" wMission none
            (completeMission "2024-01-01T10:00:00.000Z" wMission (some "photo.jpg")
              wState)).missionHistory
          = mkCompletion "2024-01-02T11:30:00.000Z" wMission none
            :: mkCompletion "2024-01-01T10:00:00.000Z" wMission (some "photo.jpg")
            :: wState.missionHistory ∧
        (mkCompletion "2024-01-02T11:30:00.000Z" wMission none).id
            ≠ (mkCompletion "2024-01-01T10:00:00.000Z" wMission (some "photo.jpg")).id ∧
        (mkCompletion "2024-01-01T10:00:00.000Z" wMission (some "photo.jpg")).date
            = isoDatePart "2024-01-01T10:00:00.000Z" ∧
        (mkCompletion "2024-01-02T11:30:00.000Z" wMission none).date
            = isoDatePart "2024-01-02T11:30:00.000Z" ∧
        (completeMission "2024-01-02T11:30:00.000Z" wMission none
            (completeMission "2024-01-01T10:00:00.000Z" wMission (some "photo.jpg")
              wState)).chatHistory = wState.chatHistory ∧
        (completeMission "2024-01-02T11:30:00.000Z" wMission none
            (completeMission "2024-01-01T10:00:00.000Z" wMission (some "photo.jpg")
              wState)).chatCount = wState.chatCount ∧
        (completeMission "2024-01-02T11:30:00.000Z" wMission none
            (completeMission "2024-01-01T10:00:00.000Z" wMission (some "photo.jpg")
              wState)).haruEmotion = wState.haruEmotion ∧
        (completeMission "2024-01-02T11:30:00.000Z" wMission none
            (completeMission "2024-01-01T10:00:00.000Z" wMission (some "photo.jpg")
              wState)).dayCount = wState.dayCount) :=
  ⟨by decide,
    c9_complete_mission_twice "2024-01-01T10:00:00.000Z" "2024-01-02T11:30:00.000Z"
      wMission (some "photo.jpg") none wState (by decide)⟩

/-- C7 counterexample: the claim says every stored value falls back to its default when
corrupt, but a non-empty, non-numeric stored day count or chat count is fed through
`parseInt`, which yields `NaN` (modelled as `none`), not the default 1 or 0. -/
theorem c7_counterexample :
    getItem cBadStore DAY_COUNT_KEY = some "abc" ∧
      getItem cBadStore CHAT_COUNT_KEY = some "xyz" ∧
      (loadState cLoadEnv cBadStore).dayCount = none ∧
      (loadState cLoadEnv cBadStore).chatCount = none ∧
      (loadState cLoadEnv cBadStore).dayCount ≠ some 1 ∧
      (loadState cLoadEnv cBadStore).chatCount ≠ some 0 := by
  decide

/-- C7 (amended): at initial load, absent values fall back to the documented defaults
(day count 1 on a true first run, empty logs, neutral emotion, chat count 0, AI toggle
on), and corrupt values fall back to defaults for the chat history, mission history,
emotional state and AI toggle; an unparseable non-empty numeric string, however, loads
as `NaN` (see the counterexample), so the numeric fields are excluded from the
corrupt-value clause. -/
theorem c7_amended_load_defaults (env : LoadEnv) (store : Storage) :
    ((loadState env []).dayCount = some 1 ∧ (loadState env []).chatHistory = [] ∧
      (loadState env []).missionHistory = [] ∧
      (loadState env []).haruEmotion = HaruEmotion.neutral ∧
      (loadState env []).chatCount = some 0 ∧ (loadState env []).useAiResponse = true ∧
      (loadState env []).isInitialized = true) ∧
    (∀ str, getItem store CHAT_HISTORY_KEY = some str → env.decodeChat str = none →
      (loadState env store).chatHistory = []) ∧
    (∀ str, getItem store MISSION_HISTORY_KEY = some str → env.decodeMissions str = none →
      (loadState env store).missionHistory = []) ∧
    (∀ str, getItem store HARU_EMOTION_KEY = some str → emotionOfString str = none →
      (loadState env store).haruEmotion = HaruEmotion.neutral) ∧
    (∀ str, getItem store USE_AI_RESPONSE_KEY = some str → env.decodeBool str = none →
      (loadState env store).useAiResponse = true) ∧
    (getItem store CHAT_COUNT_KEY = none → (loadState env store).chatCount = some 0) ∧
    (getItem store DAY_COUNT_KEY = none → getItem store LAST_VISIT_DATE_KEY = none →
      (loadState env store).dayCount = some 1) := by
  refine ⟨?_, ?_, ?_, ?_, ?_, ?_, ?_⟩
  · refine ⟨?_, rfl, rfl, rfl, rfl, rfl, rfl⟩
    simp [loadState, getItem]
  · intro str h1 h2
    by_cases hs : str = "" <;> simp [loadState, h1, h2, hs]
  · intro str h1 h2
    by_cases hs : str = "" <;> simp [loadState, h1, h2, hs]
  · intro str h1 h2
    simp [loadState, h1, h2]
  · intro str h1 h2
    simp [loadState, h1, h2]
  · intro h1
    simp [loadState, h1]
  · intro h1 h2
    simp [loadState, h1, h2]

theorem c7_amended_witness :
    getItem cCorruptStore CHAT_HISTORY_KEY = some "notjson" ∧
      cLoadEnv.decodeChat "notjson" = none ∧
      getItem cCorruptStore HARU_EMOTION_KEY = some "happy" ∧
      emotionOfString "happy" = none ∧
      (loadState cLoadEnv cCorruptStore).chatHistory = [] ∧
      (loadState cLoadEnv cCorruptStore).haruEmotion = HaruEmotion.neutral :=
  ⟨rfl, rfl, rfl, by decide,
    (c7_amended_load_defaults cLoadEnv cCorruptStore).2.1 "notjson" rfl rfl,
    (c7_amended_load_defaults cLoadEnv cCorruptStore).2.2.2.1 "happy" rfl (by decide)⟩

theorem c8_witness :
    wNet503.fetchResult = FetchOutcome.httpError 503 ∧ effectiveApiKey wNet503 [] ≠ "" ∧
      (((getGeminiResponse wNet503 []).status = GeminiStatus.overloaded ↔ (503 : Nat) = 503) ∧
        ((503 : Nat) ≠ 503 → (getGeminiResponse wNet503 []).status = GeminiStatus.error) ∧
        (getGeminiResponse wNet503 []).reply ∈ FALLBACK_MESSAGES) :=
  ⟨rfl, by decide, c8_http_error_health_and_fallback wNet503 [] 503 rfl (by decide)⟩

theorem c10_witness :
    (getItem wEmptyKeyStore API_KEY_STORAGE_KEY = some "" ∨
        getItem wEmptyKeyStore API_KEY_STORAGE_KEY = none) ∧
      getGeminiResponse wNetNoKey wEmptyKeyStore
          = getGeminiResponse wNetNoKey (removeItem wEmptyKeyStore API_KEY_STORAGE_KEY) :=
  ⟨Or.inl rfl, (c10_empty_override_falls_back wNetNoKey wEmptyKeyStore).1 (Or.inl rfl)⟩

end Harusali
